import Mathlib

/-!
Verification of the airport-backend repository: a shallow embedding of the
flight-status resolver, the status-reconciliation logic, the guest/leg store
operations and the car-assignment algorithm found in the repository's five
variant server implementations (src/server.js holds two variants, the files
under src/unnamed hold three), together with theorems settling the frozen
claims about them.

Conventions of the embedding:
  - JS strings are Lean `String`s; SQL timestamps are `Int` (seconds since
    epoch); `DATE(ts)` is floor division by 86400.
  - A fallible provider call is a `ProviderCall`: either the axios promise
    rejects (network failure, timeout, HTTP error) or it resolves with the
    list `response.data.data`.
  - `null`/`undefined`-able JS values are `Option`s; `x || d` on them is
    `Option.getD`.
  - A SQL transaction (BEGIN .. COMMIT with ROLLBACK in the catch handler)
    is an atomic state transition on the store: it yields either the fully
    committed new store or, on any failure, the unchanged original store.
  - `toLowerCase` is modelled for the ASCII range, which covers the entire
    vendor status vocabulary.
-/

/-- ASCII lowercasing of one character (model of the ASCII range of
JavaScript `toLowerCase`, which covers every vendor status string). -/
def lowerChar (c : Char) : Char :=
  if 65 ≤ c.toNat ∧ c.toNat ≤ 90 then Char.ofNat (c.toNat + 32) else c

/-- ASCII model of JavaScript `String.prototype.toLowerCase`. -/
def lowerStr (s : String) : String := String.mk (s.data.map lowerChar)

/-- Vendor flight record as consumed by `fetchFlightStatus` in
src/unnamed/part_000 and src/unnamed/part_001: the fields `flight_status`
and `departure.delay` of the first element of `response.data.data`.
`departure?.delay` may be absent, hence the `Option`. -/
structure VendorFlight where
  flightStatus : String
  departureDelay : Option Int
deriving DecidableEq

/-- One HTTP call to the flight-data provider: the axios promise either
rejects (`failure`: network failure, timeout, HTTP error status) or
resolves with the list `response.data.data`. -/
inductive ProviderCall (α : Type) where
  | failure
  | ok (flights : List α)
deriving DecidableEq

/-- JS truthiness of `flight.departure?.delay > 0`: comparing `undefined`
or `null` with `> 0` is false. -/
def delayPositive : Option Int → Bool
  | some v => decide (0 < v)
  | none => false

/-- The status-mapping block shared verbatim by `fetchFlightStatus` in
src/unnamed/part_000 (lines 79-86) and src/unnamed/part_001 (lines 96-103):
`status` starts as 'On Time' and the else-if chain overwrites it. -/
def mapVendorStatus (st : String) (delay : Option Int) : String :=
  if st = "cancelled" then "Cancelled"
  else if st = "landed" then "Landed"
  else if st = "active" then "On Time"
  else if st = "scheduled" ∧ delayPositive delay then "Delayed"
  else "On Time"

/-- JS falsiness of the credential `process.env.AVIATIONSTACK_API_KEY`:
an unset variable or the empty string is falsy. -/
def keyMissing : Option String → Bool
  | none => true
  | some s => decide (s = "")

/-- `fetchFlightStatus` of src/unnamed/part_001 (lines 78-110): returns
`none` (the resolver's Unavailable) when the credential is missing, when
the provider call fails, or when the result set is empty; otherwise maps
the first returned flight through the vendor-status block. -/
def fetchFlightStatus (apiKey : Option String)
    (call : ProviderCall VendorFlight) : Option String :=
  if keyMissing apiKey then none
  else
    match call with
    | .failure => none
    | .ok [] => none
    | .ok (f :: _) => some (mapVendorStatus f.flightStatus f.departureDelay)

/-- The lookup object `statusMap` of the first variant in src/server.js
(lines 67-73), a partial map from lowercased vendor status to system
status. -/
def statusMapLookup (s : String) : Option String :=
  if s = "cancelled" then some "Cancelled"
  else if s = "landed" then some "Landed"
  else if s = "delayed" then some "Delayed"
  else if s = "active" then some "On Time"
  else if s = "scheduled" then some "On Time"
  else none

/-- New status computed by the per-guest refresh in GET /api/guests of the
first variant in src/server.js (lines 62-77): `flight_status?.toLowerCase()`
looked up in `statusMap`, defaulting to 'On Time' when absent or
unrecognized. The reported departure delay is never consulted. -/
def serverV1NewStatus (flightStatus : Option String) : String :=
  match flightStatus with
  | none => "On Time"
  | some s =>
    match statusMapLookup (lowerStr s) with
    | some t => t
    | none => "On Time"

/-- Vendor flight record as consumed by GET /api/guests of
src/unnamed/part_002: `flight_status`, `arrival.estimated` (nullable) and
`arrival.scheduled`. -/
structure VendorFlightP2 where
  flightStatus : String
  arrivalEstimated : Option Int
  arrivalScheduled : Int
deriving DecidableEq

/-- Outcome of the per-guest provider lookup in src/unnamed/part_002
GET /api/guests: the axios call throws (`apiError`), returns an empty
result set (`emptyData`), or returns a first flight record. -/
inductive ResolverOutcome where
  | apiError
  | emptyData
  | flightData (f : VendorFlightP2)
deriving DecidableEq

/-- Status derived from a returned flight record in src/unnamed/part_002
GET /api/guests (lines 59-75): cancelled/landed map directly; active and
scheduled compare `arrival.estimated || arrival.scheduled` against
`arrival.scheduled`; anything else keeps the 'On Time' default. -/
def p2MapFlight (f : VendorFlightP2) : String :=
  if f.flightStatus = "cancelled" then "Cancelled"
  else if f.flightStatus = "landed" then "Landed"
  else if f.flightStatus = "active" ∨ f.flightStatus = "scheduled" then
    if f.arrivalScheduled < f.arrivalEstimated.getD f.arrivalScheduled
    then "Delayed" else "On Time"
  else "On Time"

/-- One guest's status-reconciliation step in src/unnamed/part_002
GET /api/guests (lines 48-97): on a returned flight record the mapped
status is written, overridden to 'Landed' when the guest's ETA is in the
past and the mapped status is 'On Time' (lines 77-82); on a thrown API
error the current status is kept unless it is 'On Time' with a past ETA,
which falls back to 'Landed' (lines 87-97); on an empty result set nothing
is written at all. -/
def p2GuestStep (current : String) (eta now : Int) (r : ResolverOutcome) : String :=
  match r with
  | .apiError => if eta < now ∧ current = "On Time" then "Landed" else current
  | .emptyData => current
  | .flightData f =>
    if eta < now ∧ p2MapFlight f = "On Time" then "Landed" else p2MapFlight f

/-- Vendor flight record as consumed by GET /api/flight-status of the
second variant in src/server.js: only `flight_status`, which may be null. -/
structure VendorFlightFS where
  flightStatus : Option String
deriving DecidableEq

/-- GET /api/flight-status of the second variant in src/server.js
(lines 576-631): responds with a concrete status string in every case —
'On Time' when the credential is missing, when the call fails, when the
result set is empty, or when the vendor status is null or unrecognized;
otherwise the mapped status. -/
def flightStatusEndpoint (apiKey : Option String)
    (call : ProviderCall VendorFlightFS) : String :=
  if keyMissing apiKey then "On Time"
  else
    match call with
    | .failure => "On Time"
    | .ok [] => "On Time"
    | .ok (f :: _) =>
      match f.flightStatus with
      | none => "On Time"
      | some s =>
        if lowerStr s = "landed" then "Landed"
        else if lowerStr s = "cancelled" ∨ lowerStr s = "canceled" then "Cancelled"
        else if lowerStr s = "delayed" then "Delayed"
        else if lowerStr s = "active" ∨ lowerStr s = "scheduled" ∨ lowerStr s = "en-route"
        then "On Time"
        else "On Time"

/-- A row of the `flight_legs` table as selected by `updateFlightStatuses`
(id, flight_number, airline, eta) together with its status column. -/
structure LegRow where
  id : Nat
  flightNumber : String
  airline : String
  eta : Int
  status : String
deriving DecidableEq

/-- Membership in the terminal set ('Landed', 'Cancelled') used by the
`status NOT IN ('Landed', 'Cancelled')` filters. -/
def isTerminal (s : String) : Bool :=
  decide (s = "Landed") || decide (s = "Cancelled")

/-- The selection of src/unnamed/part_000 `updateFlightStatuses`
(lines 98-102): every leg whose status is not terminal. -/
def selectNonTerminal (legs : List LegRow) : List LegRow :=
  legs.filter (fun l => !(isTerminal l.status))

/-- Calendar day of a timestamp (days since epoch), modelling `DATE(ts)`. -/
def dayOf (t : Int) : Int := t.fdiv 86400

/-- The selection of src/unnamed/part_001 `updateFlightStatuses`
(lines 118-123): non-terminal legs whose ETA date equals the current
date. -/
def selectNonTerminalOn (today : Int) (legs : List LegRow) : List LegRow :=
  legs.filter (fun l => !(isTerminal l.status) && decide (dayOf l.eta = today))

/-- Per-leg effect of one src/unnamed/part_000 `updateFlightStatuses` pass
(lines 104-114): a selected (non-terminal) leg is rewritten when
`fetchFlightStatus` returns a status and left untouched when it returns
null; a terminal leg is never selected, so it is untouched. -/
def reconcileLegV0 (resolve : LegRow → Option String) (l : LegRow) : LegRow :=
  if isTerminal l.status then l
  else
    match resolve l with
    | some s => { l with status := s }
    | none => l

/-- One src/unnamed/part_000 `updateFlightStatuses` pass (lines 95-118)
over the `flight_legs` table, abstracting the provider as `resolve`:
yields the list of legs sent to the provider and the table afterwards.
(`id` is the serial primary key, so rewriting by row identity coincides
with the code's `UPDATE .. WHERE id = $2`.) -/
def updateFlightStatuses (legs : List LegRow)
    (resolve : LegRow → Option String) : List LegRow × List LegRow :=
  (selectNonTerminal legs, legs.map (reconcileLegV0 resolve))

/-- Per-leg effect of one src/unnamed/part_001 `updateFlightStatuses` pass
(lines 127-138): like part_000 but only for legs selected by the
date-filtered query. -/
def reconcileLegV1 (today : Int) (resolve : LegRow → Option String)
    (l : LegRow) : LegRow :=
  if !(isTerminal l.status) && decide (dayOf l.eta = today) then
    match resolve l with
    | some s => { l with status := s }
    | none => l
  else l

/-- One src/unnamed/part_001 `updateFlightStatuses` pass (lines 112-145):
the selection keeps only non-terminal legs whose ETA date is `today`. -/
def updateFlightStatusesDated (today : Int) (legs : List LegRow)
    (resolve : LegRow → Option String) : List LegRow × List LegRow :=
  (selectNonTerminalOn today legs, legs.map (reconcileLegV1 today resolve))

/-- A leg already in the terminal status 'Landed', used as a concrete
instance. -/
def landedLeg : LegRow :=
  { id := 1, flightNumber := "100", airline := "XY", eta := 0, status := "Landed" }

/-- A non-terminal leg whose ETA falls on day 0, used as a concrete
instance against a pass run on day 1. -/
def staleLeg : LegRow :=
  { id := 7, flightNumber := "100", airline := "XY", eta := 0, status := "On Time" }

/-- A stored row of part_000's `flight_legs` table (the columns written by
the guest create/update paths). -/
structure StoredLeg where
  flight : String
  airline : String
  origin : String
  destination : String
  eta : Int
  status : String
  legOrder : Nat
deriving DecidableEq

/-- An incoming leg of the JSON payload of POST/PUT /api/guests in
part_000: `status` may be absent. -/
structure LegInput where
  flight : String
  airline : String
  origin : String
  destination : String
  eta : Int
  status : Option String
deriving DecidableEq

/-- `leg.status || 'On Time'` (part_000 line 206): an absent or empty
status string falls back to the default. -/
def legStatusOrDefault : Option String → String
  | none => "On Time"
  | some s => if s = "" then "On Time" else s

/-- The INSERT loop of PUT /api/guests/:id in part_000 (lines 202-208):
the i-th payload leg is stored with `leg_order = i`. -/
def insertLegRows (i : Nat) : List LegInput → List StoredLeg
  | [] => []
  | l :: ls =>
    { flight := l.flight, airline := l.airline, origin := l.origin,
      destination := l.destination, eta := l.eta,
      status := legStatusOrDefault l.status, legOrder := i }
      :: insertLegRows (i + 1) ls

/-- A guest row of part_000's `guests` table together with its owned legs
(the `ON DELETE CASCADE` child rows keyed by `guest_id`). -/
structure StoredGuest where
  id : Nat
  name : String
  finalDestination : String
  finalEta : Int
  legs : List StoredLeg
deriving DecidableEq

/-- Whether a guest row with the given id exists (the referent of the
`flight_legs.guest_id` foreign key). -/
def guestExists (db : List StoredGuest) (gid : Nat) : Bool :=
  db.any (fun g => decide (g.id = gid))

/-- Number of SQL statements inside the PUT transaction after BEGIN:
UPDATE guests, DELETE legs, one INSERT per leg, COMMIT. -/
def putStepCount (legs : List LegInput) : Nat := legs.length + 3

/-- Failure injection: `some i` makes the i-th transaction statement
throw; an index beyond the transaction injects nothing. -/
def stepFails (failAt : Option Nat) (n : Nat) : Bool :=
  match failAt with
  | none => false
  | some i => decide (i < n)

/-- PUT /api/guests/:id of part_000 (lines 186-218): inside one
transaction, rewrite the guest row from the payload's last leg, delete all
its legs and reinsert the payload legs in order; every thrown error — the
`legs[legs.length - 1]` read of an empty payload, an injected statement
failure, or the foreign-key violation when the guest id does not exist —
reaches the catch handler, whose ROLLBACK restores the pre-write store.
Readers observe only committed states, so the result pair is the success
flag and the observable store. -/
def replaceGuestLegs (db : List StoredGuest) (gid : Nat) (nm : String)
    (legs : List LegInput) (failAt : Option Nat) : Bool × List StoredGuest :=
  match legs.getLast? with
  | none => (false, db)
  | some finalLeg =>
    if stepFails failAt (putStepCount legs) then (false, db)
    else if !guestExists db gid then (false, db)
    else
      (true, db.map (fun g =>
        if g.id = gid then
          { g with name := nm, finalDestination := finalLeg.destination,
                   finalEta := finalLeg.eta, legs := insertLegRows 0 legs }
        else g))

/-- Outcome kind of a guest mutation as observable by the API caller. -/
inductive ApiResult where
  | ok
  | notFound
deriving DecidableEq

/-- DELETE /api/guests/:id of part_000 (lines 220-232; likewise part_001
lines 216-230 and part_002 lines 137-145): one DELETE statement whose
affected-row count is never inspected, then an unconditional success
response. Deleting the guest row cascades to its legs. -/
def deleteGuest (db : List StoredGuest) (gid : Nat) : ApiResult × List StoredGuest :=
  (ApiResult.ok, db.filter (fun g => !decide (g.id = gid)))

/-- A row of the single `guests` table of src/unnamed/part_002 and
src/server.js, restricted to the fields the delete, update and
assign-cars operations consult. Creation order is the row order of the
table. -/
structure GuestRow where
  id : Nat
  name : String
  flight : String
  airline : String
  origin : String
  eta : Int
  status : String
  carAssigned : Option Nat
deriving DecidableEq

/-- DELETE /api/guests/:id of the second variant in src/server.js
(lines 417-431): DELETE .. RETURNING *; an empty returned row set yields
a 404 'Guest not found' response. -/
def deleteGuestChecked (db : List GuestRow) (gid : Nat) : ApiResult × List GuestRow :=
  if db.any (fun g => decide (g.id = gid))
  then (ApiResult.ok, db.filter (fun g => !decide (g.id = gid)))
  else (ApiResult.notFound, db)

/-- PUT /api/guests/:id of the second variant in src/server.js
(lines 378-414): UPDATE .. RETURNING *; an empty returned row set yields
a 404 'Guest not found' response, otherwise the row is rewritten from the
payload. -/
def updateGuestChecked (db : List GuestRow) (gid : Nat) (nm fl al org : String)
    (eta : Int) (st : String) (car : Option Nat) : ApiResult × List GuestRow :=
  if db.any (fun g => decide (g.id = gid))
  then (ApiResult.ok, db.map (fun g =>
    if g.id = gid then
      { g with name := nm, flight := fl, airline := al, origin := org,
               eta := eta, status := st, carAssigned := car }
    else g))
  else (ApiResult.notFound, db)

/-- Strict codepoint order on character lists. -/
def charListLt : List Char → List Char → Bool
  | [], [] => false
  | [], _ :: _ => true
  | _ :: _, [] => false
  | a :: as, b :: bs =>
    decide (a.toNat < b.toNat) || (a == b && charListLt as bs)

/-- Strict string order modelling the collation the database applies to
ORDER BY on the `flight` column (codepoint order). -/
def strLt (a b : String) : Bool := charListLt a.data b.data

/-- Pairwise (flight, eta) sortedness: everything `SELECT * FROM guests
ORDER BY flight, eta` guarantees about the materialized row list.
Postgres specifies no order among rows that share both sort keys. -/
def sortedByFlightEta : List GuestRow → Bool
  | [] => true
  | [_] => true
  | a :: b :: rest =>
    (strLt a.flight b.flight
      || (decide (a.flight = b.flight) && decide (a.eta ≤ b.eta)))
      && sortedByFlightEta (b :: rest)

/-- The row lists the assign-cars query may materialize from a given
table: permutations of the table that are pairwise sorted on
(flight, eta). -/
def guestsQueryResult (table rows : List GuestRow) : Prop :=
  table.Perm rows ∧ sortedByFlightEta rows = true

/-- One step of the forEach grouping loop of POST /api/assign-cars
(src/server.js lines 145-151, src/unnamed/part_002 lines 153-159):
`flightGroups[guest.flight]` is created at first sight of the key and the
guest is pushed onto it. The key is the `flight` column alone. -/
def insertGroup (acc : List (String × List GuestRow)) (g : GuestRow) :
    List (String × List GuestRow) :=
  if acc.any (fun p => decide (p.1 = g.flight))
  then acc.map (fun p => if p.1 = g.flight then (p.1, p.2 ++ [g]) else p)
  else acc ++ [(g.flight, [g])]

/-- The `flightGroups` object after the forEach loop: groups keyed by the
`flight` value, keys in first-appearance order. -/
def flightGroups (rows : List GuestRow) : List (String × List GuestRow) :=
  rows.foldl insertGroup []

/-- Decimal digit test for object-key classification. -/
def isDigitChar (c : Char) : Bool := decide (48 ≤ c.toNat) && decide (c.toNat ≤ 57)

/-- Numeric value of a digit string. -/
def digitsVal : List Char → Nat → Nat
  | [], acc => acc
  | c :: cs, acc => digitsVal cs (acc * 10 + (c.toNat - 48))

/-- Whether a JS object key is an array index (a canonical decimal
numeral below 2^32 - 1): the `for..in` loop over `flightGroups`
enumerates such keys first, in ascending numeric order, before the
remaining keys in insertion order. -/
def isArrayIndexKey (s : String) : Bool :=
  match s.data with
  | [] => false
  | c :: cs =>
    (c :: cs).all isDigitChar && (!(c == '0') || decide (cs = []))
      && decide (digitsVal (c :: cs) 0 < 4294967295)

/-- Numeric value of an array-index key. -/
def keyNumVal (s : String) : Nat := digitsVal s.data 0

/-- Insertion step of the numeric ordering of array-index keys. -/
def insertByNumKey (p : String × List GuestRow) :
    List (String × List GuestRow) → List (String × List GuestRow)
  | [] => [p]
  | q :: qs =>
    if keyNumVal p.1 ≤ keyNumVal q.1 then p :: q :: qs
    else q :: insertByNumKey p qs

/-- ECMAScript `for..in` enumeration order over the `flightGroups`
object: array-index keys ascending numerically, then the remaining keys
in insertion order. -/
def jsKeyOrder (groups : List (String × List GuestRow)) :
    List (String × List GuestRow) :=
  (groups.filter (fun p => isArrayIndexKey p.1)).foldr insertByNumKey []
    ++ groups.filter (fun p => !(isArrayIndexKey p.1))

/-- The inner chunking loop `for (i = 0; i < n; i += 5)` with
`slice(i, i + 5)`, fuel-indexed for structural recursion: with fuel at
least the list length it yields the consecutive chunks of size `cap` in
order. -/
def chunksFuel {α : Type} (cap : Nat) : Nat → List α → List (List α)
  | _, [] => []
  | 0, l => [l]
  | fuel + 1, l => l.take cap :: chunksFuel cap fuel (l.drop cap)

/-- Consecutive chunks of size `cap` of a list, in order. -/
def chunksOf {α : Type} (cap : Nat) (l : List α) : List (List α) :=
  chunksFuel cap l.length l

/-- The `carId` numbering loop: `carId` starts at 1 and increments once
per produced chunk. -/
def numberFrom {α : Type} (n : Nat) : List α → List (Nat × α)
  | [] => []
  | c :: cs => (n, c) :: numberFrom (n + 1) cs

/-- All cars of one POST /api/assign-cars run, before numbering: each
group of the `flightGroups` object, enumerated in JS object-key order,
cut into consecutive chunks of five in group order. -/
def allChunks (rows : List GuestRow) : List (List GuestRow) :=
  ((jsKeyOrder (flightGroups rows)).map (fun p => chunksOf 5 p.2)).flatten

/-- POST /api/assign-cars of src/server.js (lines 140-170) and
src/unnamed/part_002 (lines 148-177) as a function of the materialized
row list returned by the ORDER BY query: the produced cars with their
sequential numbers starting from carId = 1. -/
def assignCars (rows : List GuestRow) : List (Nat × List GuestRow) :=
  numberFrom 1 (allChunks rows)

/-- Invariant of the grouping fold: every group of the accumulator holds
exactly the already-processed guests bearing its flight key, in order,
and every processed guest's flight key is present among the groups. -/
def GroupsInv (processed : List GuestRow)
    (acc : List (String × List GuestRow)) : Prop :=
  (∀ (f : String) (ms : List GuestRow), (f, ms) ∈ acc →
    ms = processed.filter (fun g => decide (g.flight = f))) ∧
  (∀ g ∈ processed, acc.any (fun p => decide (p.1 = g.flight)) = true)

/-- A concrete guest row for the assignment examples. -/
def mkGuest (i : Nat) (fl al : String) (eta : Int) : GuestRow :=
  { id := i, name := "G", flight := fl, airline := al, origin := "AAA",
    eta := eta, status := "On Time", carAssigned := none }

/-- Six guests on one flight; the fifth and sixth share the same ETA. -/
def sixTable : List GuestRow :=
  [mkGuest 1 "XY100" "XY" 10, mkGuest 2 "XY100" "XY" 20,
   mkGuest 3 "XY100" "XY" 30, mkGuest 4 "XY100" "XY" 40,
   mkGuest 5 "XY100" "XY" 50, mkGuest 6 "XY100" "XY" 50]

/-- The same six rows with the two equal-ETA guests materialized in the
opposite order — also a valid result of `ORDER BY flight, eta`. -/
def sixRowsSwapped : List GuestRow :=
  [mkGuest 1 "XY100" "XY" 10, mkGuest 2 "XY100" "XY" 20,
   mkGuest 3 "XY100" "XY" 30, mkGuest 4 "XY100" "XY" 40,
   mkGuest 6 "XY100" "XY" 50, mkGuest 5 "XY100" "XY" 50]

/-- Two guests on the same flight with different airline codes. -/
def guestAA : GuestRow := mkGuest 1 "XY100" "AA" 10

/-- Second guest of the pair, airline BA. -/
def guestBA : GuestRow := mkGuest 2 "XY100" "BA" 20

/-- A concrete payload leg. -/
def legIn : LegInput :=
  { flight := "100", airline := "XY", origin := "AAA", destination := "BBB",
    eta := 50, status := none }

/-- A concrete stored guest owning one leg. -/
def storedG : StoredGuest :=
  { id := 1, name := "A", finalDestination := "BBB", finalEta := 50,
    legs := insertLegRows 0 [legIn] }

/-- A one-guest store. -/
def dbOne : List StoredGuest := [storedG]

/-- A concrete guest row whose id is 5. -/
def otherGuest : GuestRow :=
  { id := 5, name := "B", flight := "100", airline := "XY", origin := "AAA",
    eta := 50, status := "On Time", carAssigned := none }

/-- Claim C1 (counterexample): the claim reads every Unavailable resolver
result (provider lookup failed OR returned no data) with current status
'On Time' and ETA strictly before now as producing 'Landed'. In
src/unnamed/part_002 the Landed fallback sits only in the catch handler:
when the lookup succeeds but returns no data, nothing is written, so an
'On Time' guest with ETA 0 at now = 1 keeps 'On Time' instead of the
claimed 'Landed'. -/
theorem claim1_counterexample :
    ((0 : Int) < 1) ∧
    p2GuestStep "On Time" 0 1 ResolverOutcome.emptyData = "On Time" ∧
    ("On Time" : String) ≠ "Landed" := by
  refine ⟨by decide, rfl, by decide⟩

/-- Claim C1 (amended): when the provider lookup throws, part_002's
reconciliation falls back to 'Landed' exactly if the current status is
'On Time' and the scheduled ETA is strictly before now, and keeps the
current status otherwise; when the lookup returns no data it always keeps
the current status; and the batch pass of part_000 keeps the current
status on every Unavailable (null) result. -/
theorem claim1_unavailable_policy :
    (∀ (cur : String) (eta now : Int), eta < now → cur = "On Time" →
        p2GuestStep cur eta now ResolverOutcome.apiError = "Landed") ∧
    (∀ (cur : String) (eta now : Int), ¬(eta < now ∧ cur = "On Time") →
        p2GuestStep cur eta now ResolverOutcome.apiError = cur) ∧
    (∀ (cur : String) (eta now : Int),
        p2GuestStep cur eta now ResolverOutcome.emptyData = cur) ∧
    (∀ (resolve : LegRow → Option String) (l : LegRow), resolve l = none →
        reconcileLegV0 resolve l = l) := by
  refine ⟨?_, ?_, ?_, ?_⟩
  · intro cur eta now h1 h2
    simp [p2GuestStep, h1, h2]
  · intro cur eta now h
    simp only [p2GuestStep, if_neg h]
  · intro cur eta now
    rfl
  · intro resolve l h
    simp only [reconcileLegV0, h]
    split <;> rfl

/-- Claim C1 (witness): the amended policy evaluated at concrete inputs —
a thrown lookup with past ETA and 'On Time' yields 'Landed'; a thrown
lookup for a 'Delayed' guest keeps 'Delayed'. -/
theorem claim1_unavailable_policy_witness :
    p2GuestStep "On Time" 0 1 ResolverOutcome.apiError = "Landed" ∧
    p2GuestStep "Delayed" 0 1 ResolverOutcome.apiError = "Delayed" :=
  ⟨claim1_unavailable_policy.1 "On Time" 0 1 (by decide) rfl,
   claim1_unavailable_policy.2.1 "Delayed" 0 1 (by decide)⟩

/-- Claim C2 (counterexample): the claim reads the resolver as mapping
vendor 'scheduled' with a reported departure delay greater than 0 to
Delayed, citing both `fetchFlightStatus` and the inline refresh of the
first variant in src/server.js (lines 62-77). That inline refresh never
consults the departure delay: vendor 'scheduled' (whatever the delay)
yields 'On Time', not 'Delayed'. -/
theorem claim2_counterexample :
    serverV1NewStatus (some "scheduled") = "On Time" ∧
    ("On Time" : String) ≠ "Delayed" := by
  decide

/-- Claim C2 (amended): `fetchFlightStatus` (part_000/part_001) maps
vendor statuses exactly as the claim states — cancelled to Cancelled,
landed to Landed, active to On Time, scheduled to Delayed precisely when
the reported departure delay is positive and to On Time otherwise, and
every unrecognized vendor status to On Time; the inline refresh in
src/server.js instead maps 'scheduled' to On Time regardless of delay and
additionally recognizes vendor 'delayed' as Delayed. -/
theorem claim2_vendor_status_mapping :
    (∀ d, mapVendorStatus "cancelled" d = "Cancelled") ∧
    (∀ d, mapVendorStatus "landed" d = "Landed") ∧
    (∀ d, mapVendorStatus "active" d = "On Time") ∧
    (∀ v : Int, 0 < v → mapVendorStatus "scheduled" (some v) = "Delayed") ∧
    (∀ d, delayPositive d = false → mapVendorStatus "scheduled" d = "On Time") ∧
    (∀ (s : String) (d : Option Int), s ≠ "cancelled" → s ≠ "landed" →
        s ≠ "active" → s ≠ "scheduled" → mapVendorStatus s d = "On Time") ∧
    serverV1NewStatus (some "scheduled") = "On Time" ∧
    serverV1NewStatus (some "delayed") = "Delayed" := by
  refine ⟨fun d => rfl, fun d => rfl, fun d => rfl, ?_, ?_, ?_, by decide, by decide⟩
  · intro v hv
    simp [mapVendorStatus, delayPositive, hv]
  · intro d hd
    simp [mapVendorStatus, hd]
  · intro s d h1 h2 h3 h4
    simp [mapVendorStatus, h1, h2, h3, h4]

/-- Claim C2 (witness): the amended mapping evaluated at concrete inputs —
scheduled with delay 12 maps to Delayed, the unrecognized vendor status
'diverted' maps to On Time. -/
theorem claim2_vendor_status_mapping_witness :
    mapVendorStatus "scheduled" (some 12) = "Delayed" ∧
    mapVendorStatus "diverted" none = "On Time" :=
  ⟨claim2_vendor_status_mapping.2.2.2.1 12 (by decide),
   claim2_vendor_status_mapping.2.2.2.2.2.1 "diverted" none
     (by decide) (by decide) (by decide) (by decide)⟩

/-- Claim C3 (counterexample): the claim reads every reconciliation as
leaving terminal statuses unchanged, citing also the per-read refresh of
src/unnamed/part_002 GET /api/guests (lines 48-86). That loop iterates
every guest with flight data — terminal ones included — and a concrete
provider result overwrites the stored status: a 'Cancelled' guest whose
provider record says 'landed' is rewritten to 'Landed'. -/
theorem claim3_counterexample :
    p2GuestStep "Cancelled" 0 1
      (ResolverOutcome.flightData
        { flightStatus := "landed", arrivalEstimated := none, arrivalScheduled := 0 })
      = "Landed" ∧
    ("Landed" : String) ≠ "Cancelled" := by
  decide

/-- Claim C3 (amended): in the batch pass of part_000/part_001 terminal
statuses are sticky — a terminal leg is excluded from the resolution
request by the `status NOT IN ('Landed','Cancelled')` selection and is
untouched by the pass; but the per-read refresh of part_002 does not
exclude terminal guests, and a concrete resolver result overwrites even a
terminal status. -/
theorem claim3_terminal_stickiness :
    (∀ (resolve : LegRow → Option String) (l : LegRow),
        isTerminal l.status = true → reconcileLegV0 resolve l = l) ∧
    (∀ (legs : List LegRow) (l : LegRow), isTerminal l.status = true →
        l ∉ selectNonTerminal legs) ∧
    (∀ (legs : List LegRow) (resolve : LegRow → Option String) (l : LegRow),
        l ∈ legs → isTerminal l.status = true →
        l ∈ (updateFlightStatuses legs resolve).2) ∧
    p2GuestStep "Cancelled" 0 1
      (ResolverOutcome.flightData
        { flightStatus := "landed", arrivalEstimated := none, arrivalScheduled := 0 })
      = "Landed" := by
  have hstick : ∀ (resolve : LegRow → Option String) (l : LegRow),
      isTerminal l.status = true → reconcileLegV0 resolve l = l := by
    intro resolve l h
    simp [reconcileLegV0, h]
  refine ⟨hstick, ?_, ?_, by decide⟩
  · intro legs l h hmem
    rw [selectNonTerminal, List.mem_filter] at hmem
    simp [h] at hmem
  · intro legs resolve l hmem h
    have : reconcileLegV0 resolve l = l := hstick resolve l h
    rw [updateFlightStatuses]
    exact List.mem_map.mpr ⟨l, hmem, this⟩

/-- Claim C3 (witness): the amended statement evaluated at a concrete
terminal leg — the part_000 step leaves it unchanged even when the
resolver would report 'On Time', and the selection excludes it. -/
theorem claim3_terminal_stickiness_witness :
    reconcileLegV0 (fun _ => some "On Time") landedLeg = landedLeg ∧
    landedLeg ∉ selectNonTerminal [landedLeg] :=
  ⟨claim3_terminal_stickiness.1 (fun _ => some "On Time") landedLeg (by decide),
   claim3_terminal_stickiness.2.1 [landedLeg] landedLeg (by decide)⟩

/-- Claim C7 (counterexample): the claim reads the resolver as returning
Unavailable — and only Unavailable — on network failure, timeout, missing
credential or empty result set, citing also GET /api/flight-status of the
second variant in src/server.js (lines 576-631). That endpoint instead
responds with the concrete guessed status 'On Time' when the credential
is absent and when the call fails. -/
theorem claim7_counterexample :
    flightStatusEndpoint none (ProviderCall.ok []) = "On Time" ∧
    flightStatusEndpoint none ProviderCall.failure = "On Time" := by
  exact ⟨rfl, rfl⟩

/-- Claim C7 (amended): `fetchFlightStatus` (part_001) returns Unavailable
(null) on a missing or empty credential, on a failed call, and on an
empty result set — never a concrete status derived from a failed call,
and it never raises (it is total); GET /api/flight-status in src/server.js
instead responds with the concrete default 'On Time' in each of those
cases. -/
theorem claim7_resolver_unavailable :
    (∀ (k : Option String) (call : ProviderCall VendorFlight),
        keyMissing k = true → fetchFlightStatus k call = none) ∧
    (∀ k, fetchFlightStatus k ProviderCall.failure = none) ∧
    (∀ k, fetchFlightStatus k (ProviderCall.ok []) = none) ∧
    (∀ call : ProviderCall VendorFlightFS,
        flightStatusEndpoint none call = "On Time") ∧
    (∀ k, flightStatusEndpoint k ProviderCall.failure = "On Time") ∧
    (∀ k, flightStatusEndpoint k (ProviderCall.ok ([] : List VendorFlightFS))
        = "On Time") := by
  refine ⟨?_, ?_, ?_, ?_, ?_, ?_⟩
  · intro k call h
    simp [fetchFlightStatus, h]
  · intro k
    unfold fetchFlightStatus
    split <;> rfl
  · intro k
    unfold fetchFlightStatus
    split <;> rfl
  · intro call
    rfl
  · intro k
    unfold flightStatusEndpoint
    split <;> rfl
  · intro k
    unfold flightStatusEndpoint
    split <;> rfl

/-- Claim C7 (witness): the amended statement at a concrete input — even
with a provider record in hand, an empty-string credential makes
`fetchFlightStatus` return Unavailable. -/
theorem claim7_resolver_unavailable_witness :
    fetchFlightStatus (some "")
      (ProviderCall.ok [{ flightStatus := "landed", departureDelay := none }]) = none :=
  claim7_resolver_unavailable.1 (some "")
    (ProviderCall.ok [{ flightStatus := "landed", departureDelay := none }]) (by decide)

/-- Claim C9 (counterexample): the claim reads a reconciliation pass as
querying every non-terminal leg regardless of its ETA date, citing also
src/unnamed/part_001 `updateFlightStatuses` (lines 112-125). That variant
adds `AND DATE(fl.eta) = today` to the selection: a non-terminal 'On Time'
leg with ETA on day 0 is skipped by a pass run on day 1. -/
theorem claim9_counterexample :
    isTerminal staleLeg.status = false ∧
    staleLeg ∈ [staleLeg] ∧
    staleLeg ∉ (updateFlightStatusesDated 1 [staleLeg] (fun _ => none)).1 := by
  refine ⟨by decide, by decide, by decide⟩

/-- Claim C9 (amended): the part_000 pass queries exactly the non-terminal
legs — no non-terminal leg is skipped, regardless of ETA date; the
part_001 pass queries exactly the non-terminal legs whose ETA date equals
the current date, skipping non-terminal legs of any other date. -/
theorem claim9_pass_coverage :
    (∀ (legs : List LegRow) (resolve : LegRow → Option String) (l : LegRow),
        l ∈ (updateFlightStatuses legs resolve).1 ↔
          l ∈ legs ∧ isTerminal l.status = false) ∧
    (∀ (today : Int) (legs : List LegRow) (resolve : LegRow → Option String)
        (l : LegRow),
        l ∈ (updateFlightStatusesDated today legs resolve).1 ↔
          l ∈ legs ∧ isTerminal l.status = false ∧ dayOf l.eta = today) := by
  constructor
  · intro legs resolve l
    simp [updateFlightStatuses, selectNonTerminal, List.mem_filter]
  · intro today legs resolve l
    simp [updateFlightStatusesDated, selectNonTerminalOn, List.mem_filter,
      and_assoc]

/-- Claim C9 (witness): the amended coverage at a concrete input — the
stale 'On Time' leg is selected by the part_000 pass, and is selected by
the part_001 pass exactly when that pass runs on its own day. -/
theorem claim9_pass_coverage_witness :
    staleLeg ∈ (updateFlightStatuses [staleLeg] (fun _ => none)).1 ∧
    staleLeg ∈ (updateFlightStatusesDated 0 [staleLeg] (fun _ => none)).1 :=
  ⟨(claim9_pass_coverage.1 [staleLeg] (fun _ => none) staleLeg).mpr
      ⟨by decide, by decide⟩,
   (claim9_pass_coverage.2 0 [staleLeg] (fun _ => none) staleLeg).mpr
      ⟨by decide, by decide, by decide⟩⟩

/-- The reinserted leg rows are empty exactly when the payload is empty. -/
theorem insertLegRows_eq_nil (i : Nat) (legs : List LegInput) :
    insertLegRows i legs = [] ↔ legs = [] := by
  cases legs <;> simp [insertLegRows]

/-- The PUT transaction either rolls back, leaving the store untouched, or
commits the full rewrite of the targeted guest from a nonempty payload. -/
theorem replaceGuestLegs_cases (db : List StoredGuest) (gid : Nat) (nm : String)
    (legs : List LegInput) (failAt : Option Nat) :
    replaceGuestLegs db gid nm legs failAt = (false, db) ∨
    ∃ finalLeg, legs.getLast? = some finalLeg ∧
      replaceGuestLegs db gid nm legs failAt =
        (true, db.map (fun g =>
          if g.id = gid then
            { g with name := nm, finalDestination := finalLeg.destination,
                     finalEta := finalLeg.eta, legs := insertLegRows 0 legs }
          else g)) := by
  unfold replaceGuestLegs
  cases heq : legs.getLast? with
  | none => exact Or.inl rfl
  | some fl =>
    dsimp only
    by_cases h1 : stepFails failAt (putStepCount legs) = true
    · rw [if_pos h1]
      exact Or.inl rfl
    · rw [if_neg h1]
      by_cases h2 : (!guestExists db gid) = true
      · rw [if_pos h2]
        exact Or.inl rfl
      · rw [if_neg h2]
        exact Or.inr ⟨fl, rfl, rfl⟩

/-- Claim C6 (confirmed): replacing a guest's legs is atomic — whenever
any step of the transaction fails (empty payload, injected statement
failure, missing guest id), the observable store is exactly the pre-write
store, original legs included; and if no guest of the store has zero legs
before the call, none has zero legs in the observable store afterwards,
whatever the outcome. -/
theorem claim6_replace_legs_atomic :
    (∀ (db : List StoredGuest) (gid : Nat) (nm : String) (legs : List LegInput)
        (failAt : Option Nat),
        (replaceGuestLegs db gid nm legs failAt).1 = false →
        (replaceGuestLegs db gid nm legs failAt).2 = db) ∧
    (∀ (db : List StoredGuest) (gid : Nat) (nm : String) (legs : List LegInput)
        (failAt : Option Nat),
        (∀ g ∈ db, g.legs ≠ []) →
        ∀ g ∈ (replaceGuestLegs db gid nm legs failAt).2, g.legs ≠ []) := by
  constructor
  · intro db gid nm legs failAt h
    rcases replaceGuestLegs_cases db gid nm legs failAt with hc | ⟨fl, hlast, hc⟩
    · rw [hc]
    · rw [hc] at h
      simp at h
  · intro db gid nm legs failAt hpre g hg
    rcases replaceGuestLegs_cases db gid nm legs failAt with hc | ⟨fl, hlast, hc⟩
    · rw [hc] at hg
      exact hpre g hg
    · rw [hc] at hg
      rcases List.mem_map.mp hg with ⟨g0, hg0, hmap⟩
      by_cases hid : g0.id = gid
      · rw [if_pos hid] at hmap
        rw [← hmap]
        simp only [ne_eq, insertLegRows_eq_nil]
        intro hnil
        rw [hnil] at hlast
        simp at hlast
      · rw [if_neg hid] at hmap
        rw [← hmap]
        exact hpre g0 hg0

/-- Claim C6 (witness): the atomicity statement at concrete inputs — an
injected failure of the transaction's first statement leaves the one-guest
store untouched, and a successful replacement leaves no guest with zero
legs. -/
theorem claim6_replace_legs_atomic_witness :
    (replaceGuestLegs dbOne 1 "A2" [legIn] (some 0)).2 = dbOne ∧
    (∀ g ∈ (replaceGuestLegs dbOne 1 "A2" [legIn] none).2, g.legs ≠ []) :=
  ⟨claim6_replace_legs_atomic.1 dbOne 1 "A2" [legIn] (some 0) (by decide),
   claim6_replace_legs_atomic.2 dbOne 1 "A2" [legIn] none (by decide)⟩

/-- Claim C8 (counterexample): the claim reads every update/delete of a
nonexistent guest id as signalling NotFound, citing also DELETE
/api/guests/:id of part_000 (lines 220-232). That handler never inspects
the affected-row count: deleting id 2 from a store that only holds id 1
responds success with the store unchanged — a silent no-op. -/
theorem claim8_counterexample :
    (∀ g ∈ dbOne, g.id ≠ 2) ∧
    deleteGuest dbOne 2 = (ApiResult.ok, dbOne) := by
  refine ⟨by decide, by decide⟩

/-- Claim C8 (amended): the second variant in src/server.js signals a
distinguishable NotFound on both update and delete of a nonexistent guest
id; the delete handlers of part_000, part_001 and part_002 instead respond
success unconditionally, completing as a silent no-op. -/
theorem claim8_notfound_signaling :
    (∀ (db : List GuestRow) (gid : Nat),
        (∀ g ∈ db, g.id ≠ gid) →
        deleteGuestChecked db gid = (ApiResult.notFound, db)) ∧
    (∀ (db : List GuestRow) (gid : Nat) (nm fl al org : String) (eta : Int)
        (st : String) (car : Option Nat),
        (∀ g ∈ db, g.id ≠ gid) →
        updateGuestChecked db gid nm fl al org eta st car
          = (ApiResult.notFound, db)) ∧
    (∀ (db : List StoredGuest) (gid : Nat),
        (deleteGuest db gid).1 = ApiResult.ok) := by
  have hany : ∀ (db : List GuestRow) (gid : Nat), (∀ g ∈ db, g.id ≠ gid) →
      db.any (fun g => decide (g.id = gid)) = false := by
    intro db gid h
    rw [List.any_eq_false]
    intro g hg
    simpa using h g hg
  refine ⟨?_, ?_, fun db gid => rfl⟩
  · intro db gid h
    rw [deleteGuestChecked, hany db gid h]
    rfl
  · intro db gid nm fl al org eta st car h
    rw [updateGuestChecked, hany db gid h]
    rfl

/-- Claim C8 (witness): the amended statement at a concrete input — the
checked delete of id 1 from a store holding only id 5 answers NotFound and
leaves the store unchanged. -/
theorem claim8_notfound_signaling_witness :
    deleteGuestChecked [otherGuest] 1 = (ApiResult.notFound, [otherGuest]) :=
  claim8_notfound_signaling.1 [otherGuest] 1 (by decide)

/-- The car numbers produced by the numbering loop are consecutive,
starting at its initial counter. -/
theorem numberFrom_map_fst {α : Type} (n : Nat) (cs : List α) :
    (numberFrom n cs).map Prod.fst = List.range' n cs.length := by
  induction cs generalizing n with
  | nil => rfl
  | cons c cs ih => simp [numberFrom, List.range'_succ, ih]

/-- Every numbered entry's payload comes from the chunk list. -/
theorem numberFrom_mem_snd {α : Type} {n : Nat} {cs : List α} {p : Nat × α}
    (hp : p ∈ numberFrom n cs) : p.2 ∈ cs := by
  induction cs generalizing n with
  | nil => simp [numberFrom] at hp
  | cons c cs ih =>
    rcases (List.mem_cons).mp hp with h | h
    · rw [h]
      exact List.mem_cons_self c cs
    · exact List.mem_cons_of_mem c (ih h)

/-- Every chunk the fuelled chunking loop produces (with enough fuel and
a positive size) has at most `cap` elements. -/
theorem chunksFuel_mem_length {α : Type} {cap fuel : Nat} {l c : List α}
    (hcap : 0 < cap) (hfuel : l.length ≤ fuel) (hc : c ∈ chunksFuel cap fuel l) :
    c.length ≤ cap := by
  induction fuel generalizing l with
  | zero =>
    cases l with
    | nil => simp [chunksFuel] at hc
    | cons x xs => simp at hfuel
  | succ fuel ih =>
    cases l with
    | nil => simp [chunksFuel] at hc
    | cons x xs =>
      rcases (List.mem_cons).mp hc with h | h
      · rw [h, List.length_take]
        exact min_le_left _ _
      · refine ih ?_ h
        rw [List.length_drop]
        simp only [List.length_cons] at hfuel ⊢
        omega

/-- The chunks concatenate back to the original list in order: packing is
consecutive and order-preserving. -/
theorem chunksFuel_flatten {α : Type} (cap fuel : Nat) (l : List α) :
    (chunksFuel cap fuel l).flatten = l := by
  induction fuel generalizing l with
  | zero =>
    cases l with
    | nil => rfl
    | cons x xs => simp [chunksFuel]
  | succ fuel ih =>
    cases l with
    | nil => rfl
    | cons x xs =>
      show (List.take cap (x :: xs) :: chunksFuel cap fuel (List.drop cap (x :: xs))).flatten
          = x :: xs
      rw [List.flatten_cons, ih, List.take_append_drop]

/-- Claim C4 (counterexample): the claim asserts identical car numbering
and passenger groupings across invocations on identical input, with ties
on (flight, ETA) broken by guest creation order. The query has no such
tie-break — it is ORDER BY flight, eta only. For the same six-guest table
holding two guests with equal flight and ETA, both materialization orders
satisfy everything the query demands, yet they yield different passenger
groupings (guest 5 and guest 6 swap cars), so two invocations of the
operation on the identical table are not forced to agree. -/
theorem claim4_counterexample :
    guestsQueryResult sixTable sixTable ∧
    guestsQueryResult sixTable sixRowsSwapped ∧
    assignCars sixTable ≠ assignCars sixRowsSwapped := by
  refine ⟨⟨by decide, by decide⟩, ⟨by decide, by decide⟩, by decide⟩

/-- Claim C4 (amended): the assignment operation is a deterministic
function of the materialized row list — identical lists always produce
identical groupings and identical numbering, with car numbers assigned
sequentially starting from 1 in the order groups and chunks are produced;
but the query orders rows by flight then ETA only, with no creation-order
tie-break, so guests sharing both keys may be materialized in either
order across runs. -/
theorem claim4_assignment_determinism :
    (∀ rows1 rows2 : List GuestRow, rows1 = rows2 →
        assignCars rows1 = assignCars rows2) ∧
    (∀ rows : List GuestRow,
        (assignCars rows).map Prod.fst = List.range' 1 (allChunks rows).length) := by
  constructor
  · intro rows1 rows2 h
    rw [h]
  · intro rows
    exact numberFrom_map_fst 1 (allChunks rows)

/-- Claim C4 (witness): determinism and sequential numbering evaluated on
the concrete six-guest list. -/
theorem claim4_assignment_determinism_witness :
    assignCars sixTable = assignCars sixTable ∧
    (assignCars sixTable).map Prod.fst = List.range' 1 (allChunks sixTable).length :=
  ⟨claim4_assignment_determinism.1 sixTable sixTable rfl,
   claim4_assignment_determinism.2 sixTable⟩

/-- Claim C5 (confirmed): every car the assignment operation produces
holds at most five passengers (five being the configured capacity in the
code); within each group the chunks concatenate back to the group in its
established order — consecutive first-fit packing, for any chunk size;
and six guests on one flight yield exactly two cars, the first holding
the first five guests, the second the sixth. -/
theorem claim5_capacity_and_packing :
    (∀ (rows : List GuestRow) (car : Nat × List GuestRow),
        car ∈ assignCars rows → car.2.length ≤ 5) ∧
    (∀ (cap fuel : Nat) (grp : List GuestRow),
        (chunksFuel cap fuel grp).flatten = grp) ∧
    assignCars sixTable =
      [(1, [mkGuest 1 "XY100" "XY" 10, mkGuest 2 "XY100" "XY" 20,
            mkGuest 3 "XY100" "XY" 30, mkGuest 4 "XY100" "XY" 40,
            mkGuest 5 "XY100" "XY" 50]),
       (2, [mkGuest 6 "XY100" "XY" 50])] := by
  refine ⟨?_, fun cap fuel grp => chunksFuel_flatten cap fuel grp, by decide⟩
  intro rows car h
  have h2 : car.2 ∈ allChunks rows := numberFrom_mem_snd h
  rw [allChunks] at h2
  rcases List.mem_flatten.mp h2 with ⟨cl, hcl, hc⟩
  rcases List.mem_map.mp hcl with ⟨p, hp, hpe⟩
  rw [← hpe, chunksOf] at hc
  exact chunksFuel_mem_length (by decide) (le_refl _) hc

/-- Claim C5 (witness): the capacity bound evaluated at concrete input —
the first car produced from the six-guest list carries five guests. -/
theorem claim5_capacity_and_packing_witness :
    ((1 : Nat), [mkGuest 1 "XY100" "XY" 10, mkGuest 2 "XY100" "XY" 20,
      mkGuest 3 "XY100" "XY" 30, mkGuest 4 "XY100" "XY" 40,
      mkGuest 5 "XY100" "XY" 50]).2.length ≤ 5 :=
  claim5_capacity_and_packing.1 sixTable _ (by decide)

/-- Mapping the group-update step over the accumulator leaves the key of
every entry unchanged, so key lookups are unaffected. -/
theorem insertGroup_keys (acc : List (String × List GuestRow)) (g : GuestRow)
    (x : String) :
    ((acc.map (fun p => if p.1 = g.flight then (p.1, p.2 ++ [g]) else p)).any
        (fun p => decide (p.1 = x)))
      = acc.any (fun p => decide (p.1 = x)) := by
  induction acc with
  | nil => rfl
  | cons q qs ih =>
    simp only [List.map_cons, List.any_cons, ih]
    congr 1
    split <;> rfl

/-- One grouping step preserves the grouping invariant. -/
theorem groupsInv_step {processed : List GuestRow}
    {acc : List (String × List GuestRow)} (h : GroupsInv processed acc)
    (g : GuestRow) : GroupsInv (processed ++ [g]) (insertGroup acc g) := by
  obtain ⟨h1, h2⟩ := h
  unfold insertGroup
  by_cases hmem : acc.any (fun p => decide (p.1 = g.flight)) = true
  · rw [if_pos hmem]
    constructor
    · intro f ms hin
      rcases List.mem_map.mp hin with ⟨⟨f0, ms0⟩, hp0, hpe⟩
      by_cases hf : f0 = g.flight
      · rw [if_pos hf] at hpe
        rw [Prod.mk.injEq] at hpe
        obtain ⟨hfe, hme⟩ := hpe
        subst hf
        subst hfe
        rw [← hme, h1 _ ms0 hp0, List.filter_append]
        simp
      · rw [if_neg hf] at hpe
        rw [Prod.mk.injEq] at hpe
        obtain ⟨hfe, hme⟩ := hpe
        subst hfe
        rw [← hme, h1 f0 ms0 hp0, List.filter_append]
        have hne : g.flight ≠ f0 := fun hh => hf hh.symm
        simp [hne]
    · intro g' hg'
      rw [insertGroup_keys]
      rcases List.mem_append.mp hg' with h' | h'
      · exact h2 g' h'
      · rw [List.mem_singleton.mp h']
        exact hmem
  · rw [if_neg hmem]
    constructor
    · intro f ms hin
      rcases List.mem_append.mp hin with h' | h'
      · have hne : f ≠ g.flight := by
          intro hfe
          apply hmem
          rw [List.any_eq_true]
          exact ⟨(f, ms), h', by simp [hfe]⟩
        have hne2 : g.flight ≠ f := fun hh => hne hh.symm
        rw [h1 f ms h', List.filter_append]
        simp [hne2]
      · have h'' := List.mem_singleton.mp h'
        rw [Prod.mk.injEq] at h''
        obtain ⟨hfe, hme⟩ := h''
        subst hfe
        subst hme
        have hnone : processed.filter (fun g0 => decide (g0.flight = g.flight)) = [] := by
          rw [List.filter_eq_nil_iff]
          intro g0 hg0
          simp only [decide_eq_true_eq]
          intro hfl
          apply hmem
          have hk := h2 g0 hg0
          rw [List.any_eq_true] at hk ⊢
          rcases hk with ⟨p, hp, hpk⟩
          simp only [decide_eq_true_eq] at hpk
          exact ⟨p, hp, by simp [hpk, hfl]⟩
        rw [List.filter_append, hnone]
        simp
    · intro g' hg'
      rw [List.any_append]
      rcases List.mem_append.mp hg' with h' | h'
      · rw [h2 g' h']
        rfl
      · have hg'' := List.mem_singleton.mp h'
        subst hg''
        simp

/-- Folding the grouping step over any suffix preserves the invariant. -/
theorem groupsInv_fold (rest : List GuestRow) :
    ∀ (processed : List GuestRow) (acc : List (String × List GuestRow)),
      GroupsInv processed acc →
      GroupsInv (processed ++ rest) (rest.foldl insertGroup acc) := by
  induction rest with
  | nil =>
    intro processed acc h
    simpa using h
  | cons g rest ih =>
    intro processed acc h
    have step := ih (processed ++ [g]) (insertGroup acc g) (groupsInv_step h g)
    simpa [List.append_assoc] using step

/-- Every group of the flightGroups object holds exactly the rows whose
`flight` column equals its key, in row order. -/
theorem flightGroups_filter (rows : List GuestRow) (f : String)
    (ms : List GuestRow) (h : (f, ms) ∈ flightGroups rows) :
    ms = rows.filter (fun g => decide (g.flight = f)) := by
  have base : GroupsInv [] [] := ⟨by simp, by simp⟩
  have inv := groupsInv_fold rows [] [] base
  exact (inv.1) f ms (by simpa [flightGroups] using h)

/-- Claim C10 (confirmed): car-assignment grouping keys on the `flight`
column alone — every group of the grouping object equals the filter of
the row list by flight-string equality, a predicate that never reads the
airline code, so two guests with string-equal flight fields land in the
same group whatever their airlines; concretely, two guests on flight
XY100 with airlines AA and BA are packed into the same car 1. -/
theorem claim10_grouping_by_flight_only :
    (∀ (rows : List GuestRow) (f : String) (ms : List GuestRow),
        (f, ms) ∈ flightGroups rows →
        ms = rows.filter (fun g => decide (g.flight = f))) ∧
    guestAA.airline ≠ guestBA.airline ∧
    guestAA.flight = guestBA.flight ∧
    assignCars [guestAA, guestBA] = [(1, [guestAA, guestBA])] := by
  exact ⟨flightGroups_filter, by decide, by decide, by decide⟩

/-- Claim C10 (witness): the grouping characterization at concrete input —
the single group produced from the two-guest list is exactly the
flight-filter of that list. -/
theorem claim10_grouping_by_flight_only_witness :
    [guestAA, guestBA] =
      [guestAA, guestBA].filter (fun g => decide (g.flight = "XY100")) :=
  claim10_grouping_by_flight_only.1 [guestAA, guestBA] "XY100"
    [guestAA, guestBA] (by decide)
